import Mathlib

/-!
Verification of the context-assembly pipeline of a customer-service
sentiment dashboard with a retrieval-augmented chat interface
(`src/app/page.tsx`).

The pipeline under study: three static datasets (an interaction log, a
monthly sentiment map, an issues/recommendations report) are loaded at
startup; a free-text query selects relevant subsets; a bounded prompt is
composed and sent to a local generation backend; the reply (or a fixed
fallback) is appended to the conversation transcript.

The embedding works over `List Char`-based models of the JavaScript
string primitives actually used by the source (`toLowerCase`,
`split(' ')`, `includes`, `trim`, template-literal concatenation,
`join('\n')`, `toFixed(2)`), so that every definition is executable and
kernel-reducible on concrete inputs.  JavaScript numbers appearing in
the sentiment JSON are modelled as exact fractions (`JsNum`).
-/

namespace BBSentimentChat

set_option maxRecDepth 40000

/-! ### JavaScript string primitives -/

/-- Model of `String.prototype.toLowerCase` (the data in this app is
ASCII; `Char.toLower` lower-cases exactly the ASCII letters). -/
def jsToLower (s : String) : String :=
  String.mk (s.data.map Char.toLower)

/-- Split a character list at every occurrence of `sep`, keeping empty
segments, accumulating the current segment in reverse in `acc`. -/
def splitCharsOn (sep : Char) : List Char → List Char → List (List Char)
  | [], acc => [acc.reverse]
  | c :: rest, acc =>
    if c = sep then acc.reverse :: splitCharsOn sep rest []
    else splitCharsOn sep rest (c :: acc)

/-- Model of `String.prototype.split(' ')` with a single-character
separator: `"".split(' ')` is `[""]` (never the empty array), and
consecutive separators produce empty tokens. -/
def jsSplitSpace (s : String) : List String :=
  (splitCharsOn ' ' s.data []).map String.mk

/-- Model of `String.prototype.trim`: strip leading and trailing
whitespace. -/
def jsTrim (s : String) : String :=
  String.mk (((s.data.dropWhile Char.isWhitespace).reverse.dropWhile
    Char.isWhitespace).reverse)

/-- Model of `s.includes(t)`: `t` occurs in `s` as a contiguous
substring.  Note `s.includes("")` is `true` for every `s`, exactly as in
JavaScript. -/
def strIncludes (s t : String) : Bool :=
  decide (List.IsInfix t.data s.data)

/-- Model of `Array.prototype.join('\n')`. -/
def joinLines : List String → String
  | [] => ""
  | [s] => s
  | s :: rest => s ++ "\n" ++ joinLines rest

/-! ### Data model

Mirrors the shapes consumed by `page.tsx`: the parsed CSV rows, the
`monthly_sentiment` JSON object (an insertion-ordered map, modelled as
an association list), and the analysis report. -/

/-- One parsed row of `amazonhelp_tweets.csv`.  The CSV also carries
`tweet_id`, `author_id` and `response_tweet_id` columns, which the chat
pipeline never reads; only the three consumed fields are modelled.  The
`inbound` column serializes booleans as the strings `"True"`/`"False"`
(PapaParse `dynamicTyping` converts only `"true"`/`"TRUE"`/`"false"`/
`"FALSE"`, so the value stays a string), and the renderer compares it to
the literal `'True'`. -/
structure Tweet where
  created_at : String
  inbound : String
  text : String
  deriving DecidableEq, Repr

/-- A JavaScript number from the sentiment JSON, modelled as the exact
fraction `num / den`. -/
structure JsNum where
  num : Int
  den : Nat := 1
  deriving DecidableEq, Repr

/-- One value of the `monthly_sentiment` map. -/
structure MonthData where
  average_score : JsNum
  positive : Nat
  negative : Nat
  neutral : Nat
  deriving DecidableEq, Repr

/-- The sentiment JSON document: `monthly_sentiment` is a JS object,
i.e. an insertion-ordered key/value map (`Object.entries` order). -/
structure SentimentData where
  monthly_sentiment : List (String × MonthData)
  deriving DecidableEq, Repr

structure Issue where
  id : Nat
  title : String
  description : String
  deriving DecidableEq, Repr

structure Recommendation where
  id : Nat
  title : String
  description : String
  deriving DecidableEq, Repr

structure Metrics where
  totalDuration : String
  promptEvalCount : Nat
  evalCount : Nat
  deriving DecidableEq, Repr

/-- The `analysisData` payload of `amazonhelp_analysis.json`. -/
structure AnalysisData where
  timestamp : String
  model : String
  keyIssues : List Issue
  recommendations : List Recommendation
  metrics : Metrics
  deriving DecidableEq, Repr

/-- The top-level report document `{ analysisData: ... }`. -/
structure AnalysisJson where
  analysisData : AnalysisData
  deriving DecidableEq, Repr

/-! ### Relevance selection (`findRelevantTweets`,
`analyzeSentimentTrends`, `findRelevantRecommendations`,
`findRelevantIssues`) -/

/-- `findRelevantTweets`: tokenize the query by
`query.toLowerCase().split(' ')`, keep the tweets whose lower-cased text
contains some token as a substring, and truncate with
`.slice(0, limit)`, `limit` defaulting to 5. -/
def findRelevantTweets (tweets : List Tweet) (query : String)
    (limit : Nat := 5) : List Tweet :=
  let searchTerms := jsSplitSpace (jsToLower query)
  (tweets.filter fun tweet =>
    let tweetText := jsToLower tweet.text
    searchTerms.any fun term => strIncludes tweetText term).take limit

/-- Chronological value of a period key, modelling
`new Date(key).getTime()` on the `"YYYY-MM"` keys of the sentiment map:
order-isomorphic to the parsed instant.  Unparseable keys (JS `NaN`) map
to 0. -/
def dateVal (s : String) : Nat :=
  let part := fun (cs : List Char) =>
    if cs.isEmpty || !(cs.all Char.isDigit) then none
    else some (cs.foldl (fun n c => n * 10 + (c.toNat - 48)) 0)
  match (splitCharsOn '-' s.data []).map part with
  | [some y, some m] => y * 12 + m
  | _ => 0

/-- `Object.entries(sentimentData.monthly_sentiment).sort(([a],[b]) =>
new Date(a).getTime() - new Date(b).getTime())`: the entries sorted
chronologically by key.  ECMAScript `Array.prototype.sort` is stable, so
a stable insertion sort models it. -/
def sortedMonths (sd : SentimentData) : List (String × MonthData) :=
  List.insertionSort (fun a b => dateVal a.1 ≤ dateVal b.1)
    sd.monthly_sentiment

/-- Result shape of `analyzeSentimentTrends`.  `earliest` and `latest`
are `sortedMonths[0]` and `sortedMonths[length-1]`, JS array indexing
that yields `undefined` (here `none`) on an empty array. -/
structure SentimentTrends where
  earliest : Option (String × MonthData)
  latest : Option (String × MonthData)
  trend : List (String × MonthData)
  deriving DecidableEq, Repr

/-- `analyzeSentimentTrends`: earliest entry, latest entry, and the last
3 entries (`slice(-3)`) of the chronologically sorted map.  The query is
not an input: sentiment selection is not query-filtered. -/
def analyzeSentimentTrends (sd : SentimentData) : SentimentTrends :=
  let sorted := sortedMonths sd
  { earliest := sorted.head?
    latest := sorted.getLast?
    trend := sorted.drop (sorted.length - 3) }

/-- `findRelevantRecommendations`: a recommendation matches when its
lower-cased title or description contains some query token; no cap. -/
def findRelevantRecommendations (analysisData : AnalysisData)
    (query : String) : List Recommendation :=
  let searchTerms := jsSplitSpace (jsToLower query)
  analysisData.recommendations.filter fun rec =>
    searchTerms.any fun term =>
      strIncludes (jsToLower rec.title) term
        || strIncludes (jsToLower rec.description) term

/-- `findRelevantIssues`: same matching rule over the key issues. -/
def findRelevantIssues (analysisData : AnalysisData)
    (query : String) : List Issue :=
  let searchTerms := jsSplitSpace (jsToLower query)
  analysisData.keyIssues.filter fun issue =>
    searchTerms.any fun term =>
      strIncludes (jsToLower issue.title) term
        || strIncludes (jsToLower issue.description) term

/-- The four selection results computed at the top of
`processDataForChat` (lines 126-129 of the source). -/
structure Selection where
  matchingInteractions : List Tweet
  matchingIssues : List Issue
  matchingRecommendations : List Recommendation
  sentimentSummary : SentimentTrends
  deriving DecidableEq, Repr

def select (query : String) (analysisData : AnalysisData)
    (sentimentData : SentimentData) (tweets : List Tweet) : Selection :=
  { matchingInteractions := findRelevantTweets tweets query
    matchingIssues := findRelevantIssues analysisData query
    matchingRecommendations := findRelevantRecommendations analysisData query
    sentimentSummary := analyzeSentimentTrends sentimentData }

/-! ### Prompt composition (`processDataForChat`, lines 132-165) -/

/-- Model of `Number.prototype.toFixed(2)` for a non-negative value
`num / den`: the integer of hundredths nearest to the value, ties
resolved upward (ECMA-262 picks the larger candidate), rendered with a
two-digit fraction. -/
def toFixed2Abs (num : Int) (den : Nat) : String :=
  let h : Nat := (Int.fdiv (num * 200 + (den : Int)) (2 * (den : Int))).toNat
  toString (h / 100) ++ "." ++ (if h % 100 < 10 then "0" else "")
    ++ toString (h % 100)

/-- `toFixed(2)` on a `JsNum`; ECMA-262 renders a negative value as
`"-"` followed by the rendering of its negation. -/
def toFixed2 (x : JsNum) : String :=
  if x.num < 0 then "-" ++ toFixed2Abs (-x.num) x.den
  else toFixed2Abs x.num x.den

/-- One interaction example line of the prompt:
`  * [${t.created_at}] ${t.inbound === 'True' ? 'Customer' : 'Amazon'}: "${t.text}"`. -/
def tweetLine (t : Tweet) : String :=
  "  * [" ++ t.created_at ++ "] "
    ++ (if t.inbound = "True" then "Customer" else "Amazon")
    ++ ": \"" ++ t.text ++ "\""

/-- One recent-trend line of the prompt:
`  * ${month}: Score=${data.average_score.toFixed(2)} (${data.positive} positive, ...)`. -/
def trendLine (p : String × MonthData) : String :=
  "  * " ++ p.1 ++ ": Score=" ++ toFixed2 p.2.average_score
    ++ " (" ++ toString p.2.positive ++ " positive, "
    ++ toString p.2.negative ++ " negative, "
    ++ toString p.2.neutral ++ " neutral)"

/-- One key-issue line: `  * ${i.title}: ${i.description}`. -/
def issueLine (i : Issue) : String :=
  "  * " ++ i.title ++ ": " ++ i.description

/-- One recommendation line: `  * ${r.title}: ${r.description}`. -/
def recLine (r : Recommendation) : String :=
  "  * " ++ r.title ++ ": " ++ r.description

/-- The `context` template literal of `processDataForChat`, with the
spliced sub-expressions passed in as arguments, transcribed chunk by
chunk. -/
def contextText (query : String) (a : AnalysisData) (tweetCount : Nat)
    (tweetBlock : String) (earliestKey latestKey : String)
    (trendBlock : String) (issueBlock : String) (recBlock : String) :
    String :=
  "You are a data analysis assistant working with Amazon customer service data. You have access to these three data sources:\n\nAVAILABLE DATA SOURCES:\n\n1. amazonhelp_tweets.csv - Customer Service Interactions:\n- Total tweets in dataset: "
    ++ toString tweetCount
    ++ "\n- Tweet fields: tweet_id, author_id, inbound, created_at, text, response_tweet_id\n- Relevant examples for this query:\n"
    ++ tweetBlock
    ++ "\n\n2. amazon_monthly_sentiment.json - Sentiment Analysis:\n- Time range: "
    ++ earliestKey
    ++ " to "
    ++ latestKey
    ++ "\n- Recent trends:\n"
    ++ trendBlock
    ++ "\n\n3. amazonhelp_analysis.json - Service Analysis:\n- Analysis timestamp: "
    ++ a.timestamp
    ++ "\n- Relevant Key Issues:\n"
    ++ issueBlock
    ++ "\n- Relevant Recommendations:\n"
    ++ recBlock
    ++ "\n\nINSTRUCTIONS:\n1. Only use data from these three sources\n2. If information isn\x27t in these sources, state that explicitly\n3. Keep responses focused on the actual data\n4. Please summarize the key information without extra details\n5. Give me the most relevant fact, no additional context\n\nUser Question: "
    ++ query
    ++ "\n\nBased on ONLY the above data sources, provide an evidence-based response:"

/-- The runtime error raised while evaluating the template literal:
`sentimentTrends.earliest[0]` on an `undefined` entry is a JS
`TypeError`. -/
inductive JsError where
  | typeError
  deriving DecidableEq, Repr

/-- Building the `context` string (the part of `processDataForChat`
before the `try` block).  When the sentiment map is empty,
`sortedMonths[0]` is `undefined` and indexing it throws a `TypeError`;
this happens while the template literal is evaluated, before any
network request. -/
def composePrompt (query : String) (analysisData : AnalysisData)
    (sentimentData : SentimentData) (tweets : List Tweet) :
    Except JsError String :=
  let sel := select query analysisData sentimentData tweets
  match sel.sentimentSummary.earliest, sel.sentimentSummary.latest with
  | some e, some l =>
    .ok (contextText query analysisData tweets.length
      (joinLines (sel.matchingInteractions.map tweetLine))
      e.1 l.1
      (joinLines (sel.sentimentSummary.trend.map trendLine))
      (joinLines (sel.matchingIssues.map issueLine))
      (joinLines (sel.matchingRecommendations.map recLine)))
  | _, _ => .error JsError.typeError

/-! ### Generation client (the `try`/`catch` around the `fetch` to the
local backend, lines 167-192) -/

/-- Body of a successful generation response: JSON with the generated
text under `response`. -/
structure GenResponse where
  response : String
  deriving DecidableEq, Repr

/-- Outcome of the backend round trip as observed by the client:
the transport fails (fetch rejects), or an HTTP response arrives with
status flag `ok` and a body that either parses as JSON (`some`) or does
not (`none`, so `response.json()` rejects). -/
inductive BackendOutcome where
  | transportFail
  | httpResponse (ok : Bool) (body : Option GenResponse)
  deriving DecidableEq, Repr

/-- A failed generation attempt: transport failure or non-success HTTP
status. -/
def BackendOutcome.isFailure : BackendOutcome → Bool
  | .transportFail => true
  | .httpResponse ok _ => !ok

/-- The fixed fallback apology returned by the generation client's
`catch` (and reused by `handleSendMessage`'s own `catch`). -/
def fallbackMessage : String :=
  "Sorry, I encountered an error processing your request. Please try again."

/-- The `try`/`catch` around the backend call: a non-`ok` status throws
`new Error(...)` which the same `catch` swallows, and every failure path
resolves to the fixed fallback string — the call itself never throws to
its caller. -/
def callGenerate (outcome : BackendOutcome) : String :=
  match outcome with
  | .transportFail => fallbackMessage
  | .httpResponse ok body =>
    if ok then
      match body with
      | some d => d.response
      | none => fallbackMessage
    else fallbackMessage

/-- `processDataForChat`: compose the context (which can throw a
`TypeError` before the `try` block is ever entered), then perform the
guarded backend call.  The `Bool` records whether a generation request
was issued. -/
def processDataForChat (query : String) (analysisData : AnalysisData)
    (sentimentData : SentimentData) (tweets : List Tweet)
    (outcome : BackendOutcome) : Except JsError String × Bool :=
  match composePrompt query analysisData sentimentData tweets with
  | .error e => (.error e, false)
  | .ok _ => (.ok (callGenerate outcome), true)

/-! ### Conversation state (`handleSendMessage` and the chat widget,
lines 252-277 and 359-374) -/

inductive Role where
  | user
  | assistant
  deriving DecidableEq, Repr

structure Message where
  role : Role
  content : String
  deriving DecidableEq, Repr

/-- The chat-relevant component state: the pending `input`, the
transcript `messages`, and the `chatLoading` in-flight flag. -/
structure ChatState where
  input : String
  messages : List Message
  chatLoading : Bool
  deriving DecidableEq, Repr

/-- The input field's `onChange` handler: `setInput(e.target.value)`. -/
def setInput (s : ChatState) (v : String) : ChatState :=
  { s with input := v }

/-- The synchronous prefix of `handleSendMessage`, up to the `await` of
`processDataForChat`: return unchanged if the trimmed input is empty
(the only guard the function performs); otherwise append the user
message, clear the input, and raise `chatLoading`.  The `Bool` records
whether the send proceeded (i.e. a generation round was started). -/
def handleSendMessageStart (s : ChatState) : ChatState × Bool :=
  if jsTrim s.input = "" then (s, false)
  else
    ({ input := ""
       messages := s.messages ++ [{ role := Role.user, content := s.input }]
       chatLoading := true }, true)

/-- The input field's `onKeyPress` handler fires `handleSendMessage` on
Enter unconditionally — it does not consult `chatLoading`. -/
def pressEnterInInput (s : ChatState) : ChatState × Bool :=
  handleSendMessageStart s

/-- The send button carries `disabled={chatLoading}`: a click while a
send is in flight does nothing. -/
def clickSendButton (s : ChatState) : ChatState × Bool :=
  if s.chatLoading then (s, false) else handleSendMessageStart s

/-- The completion of `handleSendMessage`: append the assistant reply on
success, or (in the `catch` branch, reached when `processDataForChat`
rejected) the fixed fallback message; `finally` clears `chatLoading`. -/
def handleSendMessageFinish (s : ChatState)
    (result : Except JsError String) : ChatState :=
  let content := match result with
    | .ok r => r
    | .error _ => fallbackMessage
  { s with
    messages := s.messages ++ [{ role := Role.assistant, content := content }]
    chatLoading := false }

/-- One complete send round trip: the synchronous start phase, the
selection/composition/generation chain, and the completion phase.  The
`Bool` records whether a generation request was issued. -/
def sendRound (s : ChatState) (analysisData : AnalysisData)
    (sentimentData : SentimentData) (tweets : List Tweet)
    (outcome : BackendOutcome) : ChatState × Bool :=
  let query := s.input
  let started := handleSendMessageStart s
  if started.2 then
    let run := processDataForChat query analysisData sentimentData tweets outcome
    (handleSendMessageFinish started.1 run.1, run.2)
  else (started.1, false)

/-! ### Dataset loading (`loadData`, lines 205-250, and the top-level
render guards, lines 279-280) -/

/-- One point of the chart data derived from the sentiment map. -/
structure ChartPoint where
  date : String
  sentiment : JsNum
  positive : Nat
  negative : Nat
  neutral : Nat
  deriving DecidableEq, Repr

/-- `Object.entries(monthly_sentiment).map(...).sort((a, b) =>
new Date(a.date) - new Date(b.date))`. -/
def chartPoints (sj : SentimentData) : List ChartPoint :=
  List.insertionSort (fun a b => dateVal a.date ≤ dateVal b.date)
    (sj.monthly_sentiment.map fun p =>
      { date := p.1
        sentiment := p.2.average_score
        positive := p.2.positive
        negative := p.2.negative
        neutral := p.2.neutral })

/-- The dataset-bearing component state. -/
structure DashboardState where
  analysisData : Option AnalysisData
  sentimentData : Option SentimentData
  tweets : List Tweet
  chartData : List ChartPoint
  loading : Bool
  deriving DecidableEq, Repr

/-- The `useState` initial values: nothing loaded, `loading` true. -/
def initialDashboardState : DashboardState :=
  { analysisData := none
    sentimentData := none
    tweets := []
    chartData := []
    loading := true }

/-- `loadData`: the three fetches run under `Promise.all` and all three
bodies are parsed (`response.json()`, `response.json()`,
`response.text()` + `Papa.parse`, which collects errors instead of
throwing) before the first `set*` call, so a fetch or parse failure
anywhere reaches the `catch` (which only logs) with no dataset state
written; `finally` clears `loading` on both paths. -/
def loadData (analysisFetch : Except Unit AnalysisJson)
    (sentimentFetch : Except Unit SentimentData)
    (tweetsFetch : Except Unit (List Tweet))
    (s : DashboardState) : DashboardState :=
  match analysisFetch, sentimentFetch, tweetsFetch with
  | .ok aj, .ok sj, .ok tw =>
    { s with
      analysisData := some aj.analysisData
      sentimentData := some sj
      tweets := tw
      chartData := chartPoints sj
      loading := false }
  | _, _, _ => { s with loading := false }

/-- What the component returns at top level. -/
inductive RenderedView where
  | loadingScreen
  | blank
  | dashboard (analysis : AnalysisData) (chart : List ChartPoint)
  deriving DecidableEq, Repr

/-- The render guards: `if (loading) return <Loading/>;
if (!analysisData) return null;` and otherwise the full dashboard. -/
def renderView (s : DashboardState) : RenderedView :=
  if s.loading then RenderedView.loadingScreen
  else
    match s.analysisData with
    | none => RenderedView.blank
    | some a => RenderedView.dashboard a s.chartData

/-! ### Concrete fixtures used by witnesses and counterexamples -/

def tweetRefund : Tweet :=
  { created_at := "T", inbound := "True", text := "Please refund my order" }

def monthJan : MonthData :=
  { average_score := { num := 1, den := 2 }
    positive := 3, negative := 1, neutral := 2 }

def sdSample : SentimentData :=
  { monthly_sentiment := [("2020-01", monthJan)] }

def issueShipping : Issue :=
  { id := 1, title := "Shipping delays", description := "Orders arrive late" }

def recTracking : Recommendation :=
  { id := 1, title := "Improve tracking"
    description := "Give live package updates" }

def adSample : AnalysisData :=
  { timestamp := "2020-02-01T00:00:00"
    model := "llama3.1"
    keyIssues := [issueShipping]
    recommendations := [recTracking]
    metrics := { totalDuration := "1s", promptEvalCount := 10, evalCount := 20 } }

/-! ### Helper lemmas -/

/-- The empty string occurs in every string, as in JavaScript
`s.includes("")`. -/
theorem strIncludes_empty (s : String) : strIncludes s "" = true := by
  unfold strIncludes
  rw [decide_eq_true_eq]
  exact ⟨[], s.data, rfl⟩

/-- Occurring in `s` persists when appending on the right. -/
theorem strIncludes_append_of_left (s t sub : String)
    (h : strIncludes s sub = true) : strIncludes (s ++ t) sub = true := by
  unfold strIncludes at h ⊢
  rw [decide_eq_true_eq] at h ⊢
  obtain ⟨u, v, huv⟩ := h
  exact ⟨u, v ++ t.data, by simp [← huv, List.append_assoc]⟩

/-- Occurring in `t` persists when prepending on the left. -/
theorem strIncludes_append_of_right (s t sub : String)
    (h : strIncludes t sub = true) : strIncludes (s ++ t) sub = true := by
  unfold strIncludes at h ⊢
  rw [decide_eq_true_eq] at h ⊢
  obtain ⟨u, v, huv⟩ := h
  exact ⟨s.data ++ u, v, by simp [← huv, List.append_assoc]⟩

/-- A nonempty sentiment map sorts to a list with a first and a last
entry. -/
theorem sortedMonths_head_getLast (sd : SentimentData)
    (hsd : sd.monthly_sentiment ≠ []) :
    ∃ x y, (sortedMonths sd).head? = some x
      ∧ (sortedMonths sd).getLast? = some y := by
  have hperm := List.perm_insertionSort
    (fun p r => dateVal p.1 ≤ dateVal r.1) sd.monthly_sentiment
  have hne : sortedMonths sd ≠ [] := by
    intro h0
    apply hsd
    rw [sortedMonths] at h0
    rw [h0] at hperm
    exact List.perm_nil.mp hperm.symm
  cases hsm : sortedMonths sd with
  | nil => exact absurd hsm hne
  | cons x xs =>
    refine ⟨x, (x :: xs).getLast (by simp), rfl, ?_⟩
    exact List.getLast?_eq_getLast _ (by simp)

/-! ### The claims -/

/-- C7: for every query and interaction log, `findRelevantTweets`
returns at most 5 interactions, and the result is exactly the first 5
(in original dataset order) of the records whose lower-cased text
contains at least one whitespace-separated lower-cased query token as a
substring — a logical OR across tokens with first-N truncation and no
ranking. -/
theorem findRelevantTweets_characterization (tweets : List Tweet)
    (query : String) :
    (findRelevantTweets tweets query).length ≤ 5 ∧
    findRelevantTweets tweets query =
      (tweets.filter fun t =>
        (jsSplitSpace (jsToLower query)).any fun term =>
          strIncludes (jsToLower t.text) term).take 5 := by
  exact ⟨List.length_take_le 5 _, rfl⟩

/-- C6: holding the datasets fixed, the sentiment summary of the
selection is identical for any two queries, and it is the earliest
entry, the latest entry, and the last 3 entries of the period entries
sorted chronologically — where the sorted list really is a
chronologically ordered (by parsed period key) permutation of the
loaded map. -/
theorem sentimentSummary_independent_of_query (q₁ q₂ : String)
    (a : AnalysisData) (sd : SentimentData) (tweets : List Tweet) :
    (select q₁ a sd tweets).sentimentSummary
      = (select q₂ a sd tweets).sentimentSummary ∧
    (select q₁ a sd tweets).sentimentSummary.earliest
      = (sortedMonths sd).head? ∧
    (select q₁ a sd tweets).sentimentSummary.latest
      = (sortedMonths sd).getLast? ∧
    (select q₁ a sd tweets).sentimentSummary.trend
      = (sortedMonths sd).drop ((sortedMonths sd).length - 3) ∧
    (sortedMonths sd).Pairwise (fun p r => dateVal p.1 ≤ dateVal r.1) ∧
    List.Perm (sortedMonths sd) sd.monthly_sentiment := by
  refine ⟨rfl, rfl, rfl, rfl, ?_, List.perm_insertionSort _ _⟩
  haveI : IsTotal (String × MonthData) (fun p r => dateVal p.1 ≤ dateVal r.1) :=
    ⟨fun p r => Nat.le_total _ _⟩
  haveI : IsTrans (String × MonthData) (fun p r => dateVal p.1 ≤ dateVal r.1) :=
    ⟨fun _ _ _ h h2 => Nat.le_trans h h2⟩
  exact List.sorted_insertionSort _ _

/-- C9: prompt composition is a pure function of
(query, report, sentiment map, interaction log): two compositions with
identical inputs yield byte-identical results. -/
theorem composePrompt_deterministic (q₁ q₂ : String)
    (a₁ a₂ : AnalysisData) (sd₁ sd₂ : SentimentData)
    (tw₁ tw₂ : List Tweet)
    (h : (q₁, a₁, sd₁, tw₁) = (q₂, a₂, sd₂, tw₂)) :
    composePrompt q₁ a₁ sd₁ tw₁ = composePrompt q₂ a₂ sd₂ tw₂ :=
  congrArg
    (fun p : String × AnalysisData × SentimentData × List Tweet =>
      composePrompt p.1 p.2.1 p.2.2.1 p.2.2.2) h

/-- Witness for C9 at a concrete input. -/
theorem composePrompt_deterministic_witness :
    composePrompt "refund" adSample sdSample [tweetRefund]
      = composePrompt "refund" adSample sdSample [tweetRefund] :=
  composePrompt_deterministic "refund" "refund" adSample adSample
    sdSample sdSample [tweetRefund] [tweetRefund] rfl

/-- C2, counterexample: on the empty query the claim fails at a concrete
input.  `"".split(' ')` is `[""]`, not the empty array, and the empty
token is a substring of every text, so the matching collections are not
empty: the selector returns the tweet and the recommendation. -/
theorem emptyQuery_claim_false :
    ¬ (jsSplitSpace (jsToLower "") = []
        ∧ findRelevantTweets [tweetRefund] "" = []
        ∧ findRelevantRecommendations adSample "" = []) := by
  decide

/-- C2, amended: for the empty query, tokenization yields the singleton
list containing the empty token; the empty token occurs in every text,
so every record matches: the selector returns the first 5 interactions
and all issues and recommendations. -/
theorem emptyQuery_matches_everything (tweets : List Tweet)
    (a : AnalysisData) :
    jsSplitSpace (jsToLower "") = [""] ∧
    findRelevantTweets tweets "" = tweets.take 5 ∧
    findRelevantIssues a "" = a.keyIssues ∧
    findRelevantRecommendations a "" = a.recommendations := by
  refine ⟨rfl, ?_, ?_, ?_⟩
  · show (tweets.filter _).take 5 = tweets.take 5
    congr 1
    apply List.filter_eq_self.mpr
    intro t _
    show ([""].any fun term => strIncludes (jsToLower t.text) term) = true
    simp [strIncludes_empty]
  · apply List.filter_eq_self.mpr
    intro i _
    show ([""].any fun term =>
      strIncludes (jsToLower i.title) term
        || strIncludes (jsToLower i.description) term) = true
    simp [strIncludes_empty]
  · apply List.filter_eq_self.mpr
    intro r _
    show ([""].any fun term =>
      strIncludes (jsToLower r.title) term
        || strIncludes (jsToLower r.description) term) = true
    simp [strIncludes_empty]

/-- C1: evaluation of the send handler at the failing input.  From an
idle state with input `"a"`, Enter starts a send (transcript gains user
`"a"`, `chatLoading` becomes true).  With the first send still in
flight, typing `"b"` and pressing Enter again is NOT a no-op:
`handleSendMessage` checks only the trimmed input, so a second user
message `"b"` is appended and a second generation round is started.
Only the button path is guarded: a click on the `disabled={chatLoading}`
send button in the same state does nothing. -/
theorem enterKey_bypasses_reentrancy_guard :
    let s0 : ChatState := { input := "a", messages := [], chatLoading := false }
    let r1 := pressEnterInInput s0
    let s2 := setInput r1.1 "b"
    r1.2 = true ∧
    r1.1.chatLoading = true ∧
    r1.1.messages = [{ role := Role.user, content := "a" }] ∧
    (clickSendButton s2).2 = false ∧
    (clickSendButton s2).1.messages = [{ role := Role.user, content := "a" }] ∧
    (pressEnterInInput s2).2 = true ∧
    (pressEnterInInput s2).1.messages
      = [{ role := Role.user, content := "a" },
         { role := Role.user, content := "b" }] ∧
    (pressEnterInInput s2).1.chatLoading = true := by
  decide

/-- C10: with an empty loaded sentiment map, composing the prompt for
any query throws a `TypeError` (indexing the `undefined` earliest
entry), and no generation request is issued, whatever the backend would
have answered. -/
theorem emptySentimentMap_typeError (q : String) (a : AnalysisData)
    (tweets : List Tweet) (outcome : BackendOutcome)
    (sd : SentimentData) (h : sd.monthly_sentiment = []) :
    processDataForChat q a sd tweets outcome
      = (Except.error JsError.typeError, false) := by
  have hs : sortedMonths sd = [] := by
    rw [sortedMonths, h]
    rfl
  simp [processDataForChat, composePrompt, select, analyzeSentimentTrends, hs]

/-- Witness for C10 at a concrete input. -/
theorem emptySentimentMap_typeError_witness :
    processDataForChat "refund" adSample { monthly_sentiment := [] }
        [tweetRefund] BackendOutcome.transportFail
      = (Except.error JsError.typeError, false) :=
  emptySentimentMap_typeError "refund" adSample [tweetRefund]
    BackendOutcome.transportFail { monthly_sentiment := [] } rfl

/-- C3: if any of the three startup fetches or parses fails, the
component ends with no dataset state written at all — analysis,
sentiment, tweets and chart data all stay at their initial empty values,
`loading` is cleared — and the top level renders nothing (the terminal
unavailable state), so no partially-loaded dashboard is ever
observable. -/
theorem loadFailure_unavailable (fa : Except Unit AnalysisJson)
    (fs : Except Unit SentimentData) (ft : Except Unit (List Tweet))
    (h : fa = Except.error () ∨ fs = Except.error () ∨ ft = Except.error ()) :
    (loadData fa fs ft initialDashboardState).analysisData = none ∧
    (loadData fa fs ft initialDashboardState).sentimentData = none ∧
    (loadData fa fs ft initialDashboardState).tweets = [] ∧
    (loadData fa fs ft initialDashboardState).chartData = [] ∧
    (loadData fa fs ft initialDashboardState).loading = false ∧
    renderView (loadData fa fs ft initialDashboardState)
      = RenderedView.blank := by
  cases fa <;> cases fs <;> cases ft <;>
    simp_all [loadData, initialDashboardState, renderView]

/-- Witness for C3: the analysis fetch fails while the other two
succeed. -/
theorem loadFailure_unavailable_witness :
    (loadData (Except.error ()) (Except.ok sdSample) (Except.ok [tweetRefund])
      initialDashboardState).analysisData = none ∧
    (loadData (Except.error ()) (Except.ok sdSample) (Except.ok [tweetRefund])
      initialDashboardState).sentimentData = none ∧
    (loadData (Except.error ()) (Except.ok sdSample) (Except.ok [tweetRefund])
      initialDashboardState).tweets = [] ∧
    (loadData (Except.error ()) (Except.ok sdSample) (Except.ok [tweetRefund])
      initialDashboardState).chartData = [] ∧
    (loadData (Except.error ()) (Except.ok sdSample) (Except.ok [tweetRefund])
      initialDashboardState).loading = false ∧
    renderView (loadData (Except.error ()) (Except.ok sdSample)
      (Except.ok [tweetRefund]) initialDashboardState)
      = RenderedView.blank :=
  loadFailure_unavailable (Except.error ()) (Except.ok sdSample)
    (Except.ok [tweetRefund]) (Or.inl rfl)

/-- C4: the end-to-end refund scenario.  Query `"refund"` against a log
with the single record (text `"Please refund my order"`, inbound flag
`"True"`, timestamp `"T"`) selects exactly that record; its example
block is the single line `  * [T] Customer: "Please refund my order"`;
in general a record renders as `Customer` exactly when its direction
flag equals `"True"` and as `Amazon` otherwise; and the composed prompt
contains the rendered line. -/
theorem refundScenario :
    findRelevantTweets [tweetRefund] "refund" = [tweetRefund] ∧
    joinLines ((findRelevantTweets [tweetRefund] "refund").map tweetLine)
      = "  * [T] Customer: \"Please refund my order\"" ∧
    (∀ t : Tweet, tweetLine t
      = "  * [" ++ t.created_at ++ "] "
        ++ (if t.inbound = "True" then "Customer" else "Amazon")
        ++ ": \"" ++ t.text ++ "\"") ∧
    (∃ p, composePrompt "refund" adSample sdSample [tweetRefund]
        = Except.ok p ∧
      strIncludes p "[T] Customer: \"Please refund my order\"" = true) := by
  refine ⟨by decide, by decide, fun t => rfl, ?_⟩
  exact ⟨"You are a data analysis assistant working with Amazon customer service data. You have access to these three data sources:\n\nAVAILABLE DATA SOURCES:\n\n1. amazonhelp_tweets.csv - Customer Service Interactions:\n- Total tweets in dataset: 1\n- Tweet fields: tweet_id, author_id, inbound, created_at, text, response_tweet_id\n- Relevant examples for this query:\n  * [T] Customer: \"Please refund my order\"\n\n2. amazon_monthly_sentiment.json - Sentiment Analysis:\n- Time range: 2020-01 to 2020-01\n- Recent trends:\n  * 2020-01: Score=0.50 (3 positive, 1 negative, 2 neutral)\n\n3. amazonhelp_analysis.json - Service Analysis:\n- Analysis timestamp: 2020-02-01T00:00:00\n- Relevant Key Issues:\n\n- Relevant Recommendations:\n\n\nINSTRUCTIONS:\n1. Only use data from these three sources\n2. If information isn't in these sources, state that explicitly\n3. Keep responses focused on the actual data\n4. Please summarize the key information without extra details\n5. Give me the most relevant fact, no additional context\n\nUser Question: refund\n\nBased on ONLY the above data sources, provide an evidence-based response:",
    by rfl, by decide⟩

/-- C5: on any transport failure or non-success HTTP status from the
generation backend, `processDataForChat` resolves (it does not throw) to
the fixed fallback apology string, and the completed send round appends
exactly the user message and that fallback as the next assistant
message. -/
theorem generationFailure_fallback (s : ChatState) (a : AnalysisData)
    (sd : SentimentData) (tweets : List Tweet) (outcome : BackendOutcome)
    (hq : jsTrim s.input ≠ "") (hsd : sd.monthly_sentiment ≠ [])
    (hfail : outcome.isFailure = true) :
    processDataForChat s.input a sd tweets outcome
      = (Except.ok fallbackMessage, true) ∧
    (sendRound s a sd tweets outcome).1.messages
      = s.messages ++ [{ role := Role.user, content := s.input },
          { role := Role.assistant, content := fallbackMessage }] := by
  obtain ⟨x, y, hhead, hlast⟩ := sortedMonths_head_getLast sd hsd
  have hgen : callGenerate outcome = fallbackMessage := by
    cases outcome with
    | transportFail => rfl
    | httpResponse ok body =>
      simp [BackendOutcome.isFailure] at hfail
      simp [callGenerate, hfail]
  have hpd : processDataForChat s.input a sd tweets outcome
      = (Except.ok fallbackMessage, true) := by
    simp [processDataForChat, composePrompt, select, analyzeSentimentTrends,
      hhead, hlast, hgen]
  refine ⟨hpd, ?_⟩
  simp [sendRound, handleSendMessageStart, hq, hpd, handleSendMessageFinish]

/-- Witness for C5: the backend is unreachable. -/
theorem generationFailure_fallback_witness :
    processDataForChat "hi" adSample sdSample [tweetRefund]
        BackendOutcome.transportFail
      = (Except.ok fallbackMessage, true) ∧
    (sendRound { input := "hi", messages := [], chatLoading := false }
        adSample sdSample [tweetRefund] BackendOutcome.transportFail).1.messages
      = ([] : List Message)
          ++ [{ role := Role.user, content := "hi" },
              { role := Role.assistant, content := fallbackMessage }] :=
  generationFailure_fallback
    { input := "hi", messages := [], chatLoading := false }
    adSample sdSample [tweetRefund] BackendOutcome.transportFail
    (by decide) (by decide) rfl

/-- C8, counterexample: at a concrete zero-match input the composer does
not state that data is unavailable — it leaves the sections silently
empty.  For the query `"zzz"` nothing matches in any dataset, the
composition succeeds, and in the prompt each evidence header is followed
immediately by the next section header with only the template's
newlines between (the spanned substrings below), i.e. an empty evidence
block and no unavailability text. -/
theorem emptyEvidence_silentlyEmpty :
    findRelevantTweets [tweetRefund] "zzz" = [] ∧
    findRelevantIssues adSample "zzz" = [] ∧
    findRelevantRecommendations adSample "zzz" = [] ∧
    (∃ p, composePrompt "zzz" adSample sdSample [tweetRefund] = Except.ok p ∧
      strIncludes p "- Relevant examples for this query:\n\n\n2. amazon_monthly_sentiment.json"
        = true ∧
      strIncludes p "- Relevant Key Issues:\n\n- Relevant Recommendations:\n\n\nINSTRUCTIONS:"
        = true) := by
  refine ⟨by decide, by decide, by decide, ?_⟩
  exact ⟨"You are a data analysis assistant working with Amazon customer service data. You have access to these three data sources:\n\nAVAILABLE DATA SOURCES:\n\n1. amazonhelp_tweets.csv - Customer Service Interactions:\n- Total tweets in dataset: 1\n- Tweet fields: tweet_id, author_id, inbound, created_at, text, response_tweet_id\n- Relevant examples for this query:\n\n\n2. amazon_monthly_sentiment.json - Sentiment Analysis:\n- Time range: 2020-01 to 2020-01\n- Recent trends:\n  * 2020-01: Score=0.50 (3 positive, 1 negative, 2 neutral)\n\n3. amazonhelp_analysis.json - Service Analysis:\n- Analysis timestamp: 2020-02-01T00:00:00\n- Relevant Key Issues:\n\n- Relevant Recommendations:\n\n\nINSTRUCTIONS:\n1. Only use data from these three sources\n2. If information isn't in these sources, state that explicitly\n3. Keep responses focused on the actual data\n4. Please summarize the key information without extra details\n5. Give me the most relevant fact, no additional context\n\nUser Question: zzz\n\nBased on ONLY the above data sources, provide an evidence-based response:",
    by rfl, by decide, by decide⟩

/-- C8, amended: when a query's tokens match zero records, the composed
prompt still contains every dataset section header (nothing is omitted)
and composition succeeds without throwing, but the evidence lines under
each header render as the empty string — the composer emits no explicit
data-unavailable text; only the fixed instruction block directs the
model to state missing information. -/
theorem emptyEvidence_sections_present (q : String) (a : AnalysisData)
    (sd : SentimentData) (tweets : List Tweet)
    (h1 : findRelevantTweets tweets q = [])
    (h2 : findRelevantIssues a q = [])
    (h3 : findRelevantRecommendations a q = [])
    (hsd : sd.monthly_sentiment ≠ []) :
    joinLines ((findRelevantTweets tweets q).map tweetLine) = "" ∧
    joinLines ((findRelevantIssues a q).map issueLine) = "" ∧
    joinLines ((findRelevantRecommendations a q).map recLine) = "" ∧
    (∃ p, composePrompt q a sd tweets = Except.ok p ∧
      strIncludes p "1. amazonhelp_tweets.csv - Customer Service Interactions:"
        = true ∧
      strIncludes p "- Relevant examples for this query:" = true ∧
      strIncludes p "- Relevant Key Issues:" = true ∧
      strIncludes p "- Relevant Recommendations:" = true) := by
  obtain ⟨x, y, hhead, hlast⟩ := sortedMonths_head_getLast sd hsd
  have hcomp : composePrompt q a sd tweets
      = Except.ok (contextText q a tweets.length
          (joinLines ((findRelevantTweets tweets q).map tweetLine))
          x.1 y.1
          (joinLines (((sortedMonths sd).drop
            ((sortedMonths sd).length - 3)).map trendLine))
          (joinLines ((findRelevantIssues a q).map issueLine))
          (joinLines ((findRelevantRecommendations a q).map recLine))) := by
    simp [composePrompt, select, analyzeSentimentTrends, hhead, hlast]
  rw [h1, h2, h3] at hcomp
  refine ⟨by simp [h1, joinLines], by simp [h2, joinLines],
    by simp [h3, joinLines], ⟨_, hcomp, ?_, ?_, ?_, ?_⟩⟩
  all_goals
    unfold contextText
    repeat
      first
      | (apply strIncludes_append_of_right
         decide)
      | apply strIncludes_append_of_left
    all_goals decide

/-- Witness for C8 at the concrete zero-match input. -/
theorem emptyEvidence_sections_present_witness :
    joinLines ((findRelevantTweets [tweetRefund] "zzz").map tweetLine) = "" ∧
    joinLines ((findRelevantIssues adSample "zzz").map issueLine) = "" ∧
    joinLines ((findRelevantRecommendations adSample "zzz").map recLine)
      = "" ∧
    (∃ p, composePrompt "zzz" adSample sdSample [tweetRefund] = Except.ok p ∧
      strIncludes p "1. amazonhelp_tweets.csv - Customer Service Interactions:"
        = true ∧
      strIncludes p "- Relevant examples for this query:" = true ∧
      strIncludes p "- Relevant Key Issues:" = true ∧
      strIncludes p "- Relevant Recommendations:" = true) :=
  emptyEvidence_sections_present "zzz" adSample sdSample [tweetRefund]
    (by decide) (by decide) (by decide) (by decide)

end BBSentimentChat
